import Mathlib

/-!
Shallow embedding of `custom_components/sgsmart/api.py` (the SG Smart API
client).

Each invocation of `_api_wrapper` consumes one `HttpOutcome` describing what
the underlying `aiohttp` request did.  Python exceptions in flight inside a
`try` block are modelled by `PyExc`; the SGSmart exception classes that a
function lets escape are modelled by `SGErr`, one constructor per class,
each carrying its message and its `__cause__`.  JSON response bodies are
modelled as string-valued objects, which is all the verified properties
need.
-/

deriving instance DecidableEq for Except

/-- A JSON object with string values, modelling Python dicts such as the
control-url data with its `host` and `path` entries. -/
abbrev JsonObj := List (String × String)

/-- Python exceptions that can be raised inside a `try` body of `api.py`:
the client's own authentication and communication errors (both subclass
`Exception` only), `aiohttp.ClientResponseError` (a subclass of
`aiohttp.ClientError`, raised by `response.raise_for_status()`),
`TimeoutError`, other `aiohttp.ClientError` values, `socket.gaierror`, and
anything else. -/
inductive PyExc
  | sgAuthError (msg : String)
  | sgCommError (msg : String)
  | clientResponseError (status : Nat)
  | timeoutError
  | clientError (msg : String)
  | gaierror (msg : String)
  | otherExc (msg : String)
deriving DecidableEq

/-- Python `str(exception)`.  For the `aiohttp` exceptions the exact text is
transport-defined; no verified property depends on it, so it is rendered
schematically. -/
def PyExc.str : PyExc → String
  | .sgAuthError m => m
  | .sgCommError m => m
  | .clientResponseError st => "HTTP error " ++ toString st
  | .timeoutError => ""
  | .clientError m => m
  | .gaierror m => m
  | .otherExc m => m

/-- Which exceptions match `except TimeoutError`. -/
def PyExc.matchesTimeout : PyExc → Bool
  | .timeoutError => true
  | _ => false

/-- Which exceptions match `except (aiohttp.ClientError, socket.gaierror)`;
`ClientResponseError` is a subclass of `ClientError`, so it matches. -/
def PyExc.matchesClientError : PyExc → Bool
  | .clientResponseError _ => true
  | .clientError _ => true
  | .gaierror _ => true
  | _ => false

/-- The SGSmart exception hierarchy, flattened: `apiError` is the base
`SGSmartApiClientError` raised as such, `commError` the
`SGSmartApiClientCommunicationError` subclass, `authError` the
`SGSmartApiClientAuthenticationError` subclass.  Each carries the message
and the `__cause__` attached by `raise ... from exception` (`none` when
raised bare). -/
inductive SGErr
  | apiError (msg : String) (cause : Option PyExc)
  | commError (msg : String) (cause : Option PyExc)
  | authError (msg : String) (cause : Option PyExc)
deriving DecidableEq

/-- The escaping exception is exactly the base class `SGSmartApiClientError`
(not one of its two subclasses). -/
def SGErr.isGenericApiError : SGErr → Bool
  | .apiError _ _ => true
  | _ => false

/-- The escaping exception is `SGSmartApiClientCommunicationError`. -/
def SGErr.isCommError : SGErr → Bool
  | .commError _ _ => true
  | _ => false

/-- The escaping exception is `SGSmartApiClientAuthenticationError`. -/
def SGErr.isAuthError : SGErr → Bool
  | .authError _ _ => true
  | _ => false

/-- A result is a success (no exception escaped). -/
def exOk {ε α : Type} : Except ε α → Bool
  | .ok _ => true
  | .error _ => false

/-- What one underlying HTTP request does: it completes with a status code
and a parsed JSON body, or it fails at the transport level. -/
inductive HttpOutcome
  | response (status : Nat) (body : JsonObj)
  | timeout
  | clientError (msg : String)
  | gaierror (msg : String)
  | otherExc (msg : String)
deriving DecidableEq

/-- `_verify_response_or_raise`: a 401 or 403 status raises
`SGSmartApiClientAuthenticationError`; otherwise
`response.raise_for_status()` raises `aiohttp.ClientResponseError` for any
status of 400 or more and does nothing below 400. -/
def verify_response_or_raise (status : Nat) : Except PyExc Unit :=
  if status = 401 ∨ status = 403 then
    .error (.sgAuthError "Invalid credentials or session expired")
  else if 400 ≤ status then
    .error (.clientResponseError status)
  else
    .ok ()

/-- The `try` body of `_api_wrapper`: perform the request, verify the
status, return the parsed JSON body. -/
def api_wrapper_try (o : HttpOutcome) : Except PyExc JsonObj :=
  match o with
  | .response status body =>
      match verify_response_or_raise status with
      | .ok _ => .ok body
      | .error e => .error e
  | .timeout => .error .timeoutError
  | .clientError m => .error (.clientError m)
  | .gaierror m => .error (.gaierror m)
  | .otherExc m => .error (.otherExc m)

/-- The `except` chain of `_api_wrapper`, in source order: `TimeoutError`,
then `(aiohttp.ClientError, socket.gaierror)`, then the trailing broad
`except Exception`.  The broad handler also catches the
`SGSmartApiClientAuthenticationError` raised by `_verify_response_or_raise`
and re-wraps it as the generic `SGSmartApiClientError`. -/
def api_wrapper_except (e : PyExc) : SGErr :=
  if e.matchesTimeout then
    .commError ("Timeout error fetching information - " ++ e.str) (some e)
  else if e.matchesClientError then
    .commError ("Error fetching information - " ++ e.str) (some e)
  else
    .apiError ("Something really wrong happened! - " ++ e.str) (some e)

/-- `SGSmartApiClient._api_wrapper`. -/
def api_wrapper (o : HttpOutcome) : Except SGErr JsonObj :=
  match api_wrapper_try o with
  | .ok v => .ok v
  | .error e => .error (api_wrapper_except e)

/-- The client's mutable session state (`self._is_authenticated`); the
cookie jar itself is owned by the transport and never inspected. -/
structure ClientState where
  is_authenticated : Bool
deriving DecidableEq

/-- `SGSmartApiClient.async_login`: on success the flag becomes true; if
`_api_wrapper` raises, the exception propagates before the assignment, so
the flag keeps its previous value. -/
def async_login (s : ClientState) (o : HttpOutcome) :
    Except SGErr JsonObj × ClientState :=
  match api_wrapper o with
  | .ok v => (.ok v, ⟨true⟩)
  | .error e => (.error e, s)

/-- The kind of one HTTP request made by the session layer. -/
inductive ReqKind
  | login
  | call
deriving DecidableEq

/-- One request as recorded in a trace: its kind and whether it succeeded. -/
abbrev Req := ReqKind × Bool

/-- The try/except part of `_api_call_with_auth`: issue the call; on
`SGSmartApiClientAuthenticationError` set the flag false, re-login once and
retry the call once.  `env` supplies the outcome of each successive HTTP
request and `i` is the index of the next one; the returned list extends
`reqs` with each request made (kind, success). -/
def api_call_body (s : ClientState) (env : Nat → HttpOutcome) (i : Nat)
    (reqs : List Req) : Except SGErr JsonObj × ClientState × List Req :=
  match api_wrapper (env i) with
  | .ok v => (.ok v, s, reqs ++ [(.call, true)])
  | .error e =>
    match e with
    | .authError _ _ =>
        match async_login ⟨false⟩ (env (i + 1)) with
        | (.ok _, s2) =>
            match api_wrapper (env (i + 2)) with
            | .ok v =>
                (.ok v, s2, reqs ++ [(.call, false), (.login, true), (.call, true)])
            | .error e2 =>
                (.error e2, s2, reqs ++ [(.call, false), (.login, true), (.call, false)])
        | (.error e2, s2) =>
            (.error e2, s2, reqs ++ [(.call, false), (.login, false)])
    | _ => (.error e, s, reqs ++ [(.call, false)])

/-- `SGSmartApiClient._api_call_with_auth`, including the initial
`_ensure_authenticated` (which logs in only when the flag is false). -/
def api_call_with_auth (s : ClientState) (env : Nat → HttpOutcome) :
    Except SGErr JsonObj × ClientState × List Req :=
  if s.is_authenticated then
    api_call_body s env 0 []
  else
    match async_login s (env 0) with
    | (.ok _, s1) => api_call_body s1 env 1 [(.login, true)]
    | (.error e, s1) => (.error e, s1, [(.login, false)])

/-- `SGSmartApiClient._api_call_without_auth`: a plain wrapped request. -/
def api_call_without_auth (o : HttpOutcome) : Except SGErr JsonObj :=
  api_wrapper o

/-- `SGSmartApiClient.async_get_control_urls`: an unauthenticated POST to
the route discovery URL; the response body is returned as-is, with no
validation of its fields. -/
def async_get_control_urls (o : HttpOutcome) : Except SGErr JsonObj :=
  api_call_without_auth o

/-- `SGSmartApiClient.async_logout`: clears the cookie jar and resets the
flag. -/
def async_logout (_s : ClientState) : ClientState :=
  ⟨false⟩

/-- ASCII lowercasing, modelling Python `str.lower` on the ASCII
identifiers used in the protocol messages. -/
def py_lower (s : String) : String :=
  String.mk (s.data.map Char.toLower)

/-- Uppercase hexadecimal digit for a value below 16. -/
def hexDigitUpper (n : Nat) : Char :=
  if n < 10 then Char.ofNat (48 + n) else Char.ofNat (55 + n)

/-- Python two-digit uppercase hex formatting (format spec 02X), for values
below 256; the dim command only formats validated values in [1,100]. -/
def hex2 (n : Nat) : String :=
  String.mk [hexDigitUpper (n / 16 % 16), hexDigitUpper (n % 16)]

/-- Lowercase hexadecimal digit for a value below 16. -/
def hexDigitLower (n : Nat) : Char :=
  if n < 10 then Char.ofNat (48 + n) else Char.ofNat (87 + n)

/-- Four lowercase hex digits, as Python's json encoder renders a
backslash-u escape. -/
def hex4Lower (n : Nat) : String :=
  String.mk [hexDigitLower (n / 4096 % 16), hexDigitLower (n / 256 % 16),
    hexDigitLower (n / 16 % 16), hexDigitLower (n % 16)]

/-- Numeric value of one hexadecimal digit character. -/
def hexVal (c : Char) : Nat :=
  if 48 ≤ c.toNat ∧ c.toNat ≤ 57 then c.toNat - 48 else c.toNat - 55

/-- Decode a two-character uppercase hex string back to its value. -/
def decodeHex2 (s : String) : Nat :=
  match s.data with
  | [a, b] => 16 * hexVal a + hexVal b
  | _ => 0

/-- The character is one of 0-9 or A-F. -/
def isHexUpperDigit (c : Char) : Bool :=
  (48 ≤ c.toNat && c.toNat ≤ 57) || (65 ≤ c.toNat && c.toNat ≤ 70)

/-- One character as Python `json.dumps` renders it inside a string literal
(default `ensure_ascii`): the two-character escapes, a backslash-u escape
for any other character outside the printable ASCII range (basic-plane
model), and the character itself otherwise. -/
def jsonEscapeChar (c : Char) : String :=
  if c.toNat = 34 then "\\\""
  else if c.toNat = 92 then "\\\\"
  else if c.toNat = 10 then "\\n"
  else if c.toNat = 13 then "\\r"
  else if c.toNat = 9 then "\\t"
  else if c.toNat = 8 then "\\b"
  else if c.toNat = 12 then "\\f"
  else if c.toNat < 32 ∨ 126 < c.toNat then "\\u" ++ hex4Lower c.toNat
  else String.singleton c

/-- A Python value appearing in the control message list. -/
inductive PyVal
  | s (v : String)
  | i (v : Int)
deriving DecidableEq

/-- `json.dumps` of one value. -/
def PyVal.dump : PyVal → String
  | .s v => "\"" ++ String.join (v.data.map jsonEscapeChar) ++ "\""
  | .i v => toString v

/-- `json.dumps` of a list with the default separators: a comma and a
space between consecutive elements. -/
def json_dumps (l : List PyVal) : String :=
  "[" ++ String.intercalate ", " (l.map PyVal.dump) ++ "]"

/-- Replace every non-overlapping occurrence of `pat` from left to right,
modelling Python `str.replace` for a non-empty `pat`; `fuel` bounds the
recursion and is instantiated with the length of the subject, which a
non-empty `pat` never exhausts early. -/
def replaceChars (pat rep : List Char) : Nat → List Char → List Char
  | _, [] => []
  | 0, s => s
  | fuel + 1, c :: cs =>
    if pat.isPrefixOf (c :: cs) then
      rep ++ replaceChars pat rep fuel ((c :: cs).drop pat.length)
    else
      c :: replaceChars pat rep fuel cs

/-- Python `str.replace` (for the non-empty literal patterns used here). -/
def string_replace (s pat rep : String) : String :=
  String.mk (replaceChars pat.data rep.data s.data.length s.data)

/-- One message yielded by iterating over the WebSocket: a TEXT frame, an
ERROR message (carrying the text of the exception the connection would
report), or a frame of any other kind. -/
inductive WsMsg
  | text (s : String)
  | error (excmsg : String)
  | other
deriving DecidableEq

/-- The receive loop of `async_control_device_websocket`: break on the
first TEXT frame, raise `SGSmartApiClientCommunicationError` on an ERROR
message, skip other kinds, and fall through successfully when the iterator
ends because the server closed the connection. -/
def ws_receive_loop : List WsMsg → Except PyExc Unit
  | [] => .ok ()
  | .text _ :: _ => .ok ()
  | .error m :: _ => .error (.sgCommError ("WebSocket error: " ++ m))
  | .other :: rest => ws_receive_loop rest

/-- Python dict membership for the modelled JSON objects. -/
def hasKey (d : JsonObj) (k : String) : Bool :=
  (List.lookup k d).isSome

/-- Python dict indexing; the callers guard on `hasKey` first. -/
def getVal (d : JsonObj) (k : String) : String :=
  (List.lookup k d).getD ""

/-- A completed WebSocket exchange: the URL that was connected to and the
text frames sent over the connection. -/
structure WsConn where
  url : String
  sent : List String
deriving DecidableEq

/-- The WebSocket URL built from the control-url data: host, path, the
socket.io suffix, then the scheme rewrites. -/
def ws_url_of (control_url_data : JsonObj) : String :=
  string_replace
    (string_replace
      (getVal control_url_data "host" ++ getVal control_url_data "path" ++
        "/socket.io/?EIO=3&transport=websocket")
      "https://" "wss://")
    "http://" "ws://"

/-- The frame text built by `async_control_device_websocket`: the
socket.io packet-type marker `42` followed by the `json.dumps` of the
message list. -/
def control_message (sector_uuid : String) (mesh_id : Int)
    (command_data : String) : String :=
  "42" ++ json_dumps [PyVal.s "extModelMessage",
    PyVal.s ("s_" ++ py_lower sector_uuid),
    PyVal.i mesh_id, PyVal.i 65283, PyVal.s command_data]

/-- `SGSmartApiClient.async_control_device_websocket`.  `incoming` is the
sequence of messages the server delivers before closing the connection.  A
success returns the connection actually opened (URL, frames sent); the
validation failure is raised before any connection exists. -/
def async_control_device_websocket (control_url_data : JsonObj)
    (sector_uuid : String) (mesh_id : Int) (command_data : String)
    (incoming : List WsMsg) : Except SGErr WsConn :=
  if control_url_data.isEmpty || !hasKey control_url_data "host" ||
      !hasKey control_url_data "path" then
    .error (.apiError "Invalid control URL data" none)
  else
    let ws_url := ws_url_of control_url_data
    let message_with_type := control_message sector_uuid mesh_id command_data
    match ws_receive_loop incoming with
    | .ok _ => .ok ⟨ws_url, [message_with_type]⟩
    | .error e =>
        .error (.commError ("WebSocket communication error: " ++ e.str) (some e))

/-- `SGSmartApiClient.async_turn_on_light`: the fixed turn-on payload. -/
def async_turn_on_light (control_url_data : JsonObj) (sector_uuid : String)
    (mesh_id : Int) (incoming : List WsMsg) : Except SGErr WsConn :=
  async_control_device_websocket control_url_data sector_uuid mesh_id
    "23BC0100010000" incoming

/-- `SGSmartApiClient.async_turn_off_light`: the fixed turn-off payload. -/
def async_turn_off_light (control_url_data : JsonObj) (sector_uuid : String)
    (mesh_id : Int) (incoming : List WsMsg) : Except SGErr WsConn :=
  async_control_device_websocket control_url_data sector_uuid mesh_id
    "23BC0000010000" incoming

/-- The command string built by `async_dim_light` after its range check:
the opcode, the brightness byte, the fixed suffix and the trailer. -/
def dim_command_data (brightness_percent : Nat) : String :=
  "23BC01" ++ hex2 brightness_percent ++ "01" ++ "0000"

/-- `SGSmartApiClient.async_dim_light`: range-check the percentage, then
send the encoded dim command. -/
def async_dim_light (control_url_data : JsonObj) (sector_uuid : String)
    (mesh_id : Int) (brightness_percent : Int) (incoming : List WsMsg) :
    Except SGErr WsConn :=
  if ¬(1 ≤ brightness_percent ∧ brightness_percent ≤ 100) then
    .error (.apiError
      ("Brightness must be between 1 and 100, got " ++ toString brightness_percent)
      none)
  else
    async_control_device_websocket control_url_data sector_uuid mesh_id
      (dim_command_data brightness_percent.toNat) incoming

/-- The result failed with exactly the base `SGSmartApiClientError` class
(not one of its two subclasses). -/
def failedWithGenericApiError {α : Type} : Except SGErr α → Bool
  | .error e => e.isGenericApiError
  | .ok _ => false

/-- The result failed with `SGSmartApiClientCommunicationError`. -/
def failedWithCommError {α : Type} : Except SGErr α → Bool
  | .error e => e.isCommError
  | .ok _ => false

/-- The result failed with `SGSmartApiClientAuthenticationError`. -/
def failedWithAuthError {α : Type} : Except SGErr α → Bool
  | .error e => e.isAuthError
  | .ok _ => false

/-- One public client operation together with the outcomes of the HTTP
requests it may make: a direct login, an authenticated call (which makes at
most three requests), or a logout. -/
inductive Op
  | login (o : HttpOutcome)
  | callAuth (o1 o2 o3 : HttpOutcome)
  | logout

/-- The request environment of one authenticated call. -/
def envOf (o1 o2 o3 : HttpOutcome) : Nat → HttpOutcome
  | 0 => o1
  | 1 => o2
  | _ => o3

/-- Execute one operation: the new session state and the record of the HTTP
requests the operation made. -/
def execOp (s : ClientState) : Op → ClientState × List Req
  | .login o => ((async_login s o).2, [(.login, exOk (async_login s o).1)])
  | .callAuth o1 o2 o3 =>
      ((api_call_with_auth s (envOf o1 o2 o3)).2.1,
       (api_call_with_auth s (envOf o1 o2 o3)).2.2)
  | .logout => (async_logout s, [])

/-- Execute a sequence of operations from a state, collecting every HTTP
request made along the way. -/
def execTrace (s : ClientState) : List Op → ClientState × List Req
  | [] => (s, [])
  | op :: rest =>
      ((execTrace (execOp s op).1 rest).1,
       (execOp s op).2 ++ (execTrace (execOp s op).1 rest).2)

/-! ## Helper lemmas -/

/-- No branch of the `except` chain of `_api_wrapper` produces the
authentication error: the broad trailing handler re-wraps it. -/
theorem api_wrapper_except_not_auth (e : PyExc) :
    (api_wrapper_except e).isAuthError = false := by
  cases e <;> rfl

/-- No `SGSmartApiClientAuthenticationError` ever escapes `_api_wrapper`,
whatever the request does: the retry handler in `_api_call_with_auth` is
unreachable. -/
theorem api_wrapper_never_auth (o : HttpOutcome) :
    failedWithAuthError (api_wrapper o) = false := by
  unfold api_wrapper
  cases h : api_wrapper_try o with
  | ok v => rfl
  | error e =>
      show (api_wrapper_except e).isAuthError = false
      exact api_wrapper_except_not_auth e

/-- The error form of the previous lemma. -/
theorem api_wrapper_ne_auth (o : HttpOutcome) (m : String) (c : Option PyExc) :
    api_wrapper o ≠ .error (.authError m c) := by
  intro h
  have h2 := api_wrapper_never_auth o
  rw [h] at h2
  exact Bool.noConfusion h2

/-! ## C1 -/

/-- C1: the claim fails on the code.  A 401 or 403 response makes
`_verify_response_or_raise` raise `SGSmartApiClientAuthenticationError`,
but that raise happens inside the `try` of `_api_wrapper`, whose trailing
broad `except Exception` catches it and re-raises the generic
`SGSmartApiClientError`; so the call fails with the generic error, and no
call through the wrapper — login, authenticated call or retry — can ever
fail with `AuthenticationError` (which also makes the retry handler of
`_api_call_with_auth` dead code). -/
theorem c1_auth_error_swallowed_by_wrapper :
    (api_wrapper (.response 401 []) =
      .error (.apiError
        "Something really wrong happened! - Invalid credentials or session expired"
        (some (.sgAuthError "Invalid credentials or session expired")))) ∧
    (api_wrapper (.response 403 []) =
      .error (.apiError
        "Something really wrong happened! - Invalid credentials or session expired"
        (some (.sgAuthError "Invalid credentials or session expired")))) ∧
    (∀ o : HttpOutcome, failedWithAuthError (api_wrapper o) = false) :=
  ⟨by decide, by decide, api_wrapper_never_auth⟩

/-! ## C2 -/

/-- C2: the claim fails on the code.  An authenticated call whose request
comes back 401 receives the generic `SGSmartApiClientError` from
`_api_wrapper` (see C1), which the `except
SGSmartApiClientAuthenticationError` handler of `_api_call_with_auth` does
not match: the session flag is not reset, no re-login happens and the call
is not retried — exactly one request is made and the generic error
propagates.  The same holds when every request would return 401. -/
theorem c2_no_relogin_no_retry_on_401 :
    api_call_with_auth ⟨true⟩ (fun _ => .response 401 []) =
      (.error (.apiError
        "Something really wrong happened! - Invalid credentials or session expired"
        (some (.sgAuthError "Invalid credentials or session expired"))),
       ⟨true⟩, [(.call, false)]) := by
  rfl

/-! ## C3 -/

/-- C3 counterexample: a 500 response does not fail with the base
`SGSmartApiClientError`; it fails with the `CommunicationError` subclass,
because `response.raise_for_status()` raises `aiohttp.ClientResponseError`,
a subclass of `aiohttp.ClientError`, which the communication-error handler
catches first. -/
theorem c3_counterexample :
    failedWithCommError (api_wrapper (.response 500 [])) = true ∧
    failedWithGenericApiError (api_wrapper (.response 500 [])) = false := by
  decide

/-- C3 amended: a completed response whose status is at least 400 and is
not 401/403 fails with `CommunicationError` (not the base `ApiError`),
with the underlying HTTP error preserved as the cause; statuses below 400
outside 2xx raise nothing in the wrapper at all. -/
theorem c3_http_error_becomes_comm_error (st : Nat) (body : JsonObj)
    (h400 : 400 ≤ st) (h401 : st ≠ 401) (h403 : st ≠ 403) :
    api_wrapper (.response st body) =
      .error (.commError
        ("Error fetching information - " ++ PyExc.str (.clientResponseError st))
        (some (.clientResponseError st))) := by
  have hv : verify_response_or_raise st = .error (.clientResponseError st) := by
    unfold verify_response_or_raise
    rw [if_neg (not_or.mpr ⟨h401, h403⟩), if_pos h400]
  simp [api_wrapper, api_wrapper_try, hv, api_wrapper_except,
    PyExc.matchesTimeout, PyExc.matchesClientError]

/-- Witness for the amended C3 at status 500. -/
theorem c3_http_error_becomes_comm_error_witness :
    api_wrapper (.response 500 []) =
      .error (.commError
        ("Error fetching information - " ++ PyExc.str (.clientResponseError 500))
        (some (.clientResponseError 500))) :=
  c3_http_error_becomes_comm_error 500 [] (by decide) (by decide) (by decide)

/-! ## More helper lemmas -/

/-- A dict with a present key is not empty. -/
theorem hasKey_not_empty {d : JsonObj} {k : String} (h : hasKey d k = true) :
    d.isEmpty = false := by
  cases d with
  | nil => simp [hasKey, List.lookup] at h
  | cons a l => rfl

/-- The validation guard of `async_control_device_websocket` is false when
both keys are present. -/
theorem ws_guard_false {d : JsonObj} (hh : hasKey d "host" = true)
    (hp : hasKey d "path" = true) :
    (d.isEmpty || !hasKey d "host" || !hasKey d "path") = false := by
  rw [hh, hp, hasKey_not_empty hh]
  rfl

/-- A message sequence with neither a TEXT nor an ERROR message lets the
receive loop fall through successfully. -/
theorem ws_receive_loop_all_other (msgs : List WsMsg)
    (h : ∀ m ∈ msgs, m = WsMsg.other) : ws_receive_loop msgs = .ok () := by
  induction msgs with
  | nil => rfl
  | cons m rest ih =>
      have hm := h m (List.mem_cons_self m rest)
      subst hm
      exact ih fun x hx => h x (List.mem_cons_of_mem _ hx)

/-! ## C4 -/

/-- C4 counterexample: turn-on for sector ABC-123 and mesh 42 sends one
frame, but its text is not the compact string of the claim — `json.dumps`
uses the default separators, which put a space after each comma. -/
theorem c4_counterexample :
    async_turn_on_light [("host", "https://example.com"), ("path", "/p")]
        "ABC-123" 42 [] =
      .ok ⟨"wss://example.com/p/socket.io/?EIO=3&transport=websocket",
        ["42[\"extModelMessage\", \"s_abc-123\", 42, 65283, \"23BC0100010000\"]"]⟩ ∧
    "42[\"extModelMessage\", \"s_abc-123\", 42, 65283, \"23BC0100010000\"]" ≠
      "42[\"extModelMessage\",\"s_abc-123\",42,65283,\"23BC0100010000\"]" := by
  decide

/-- C4 amended: for any endpoint carrying both keys, when the receive loop
terminates normally, turn-on for sector ABC-123 and mesh 42 opens one
connection and sends exactly one text frame, whose text has a space after
each comma of the JSON array. -/
theorem c4_turn_on_frame (d : JsonObj) (incoming : List WsMsg)
    (hh : hasKey d "host" = true) (hp : hasKey d "path" = true)
    (hq : ws_receive_loop incoming = .ok ()) :
    async_turn_on_light d "ABC-123" 42 incoming =
      .ok ⟨ws_url_of d,
        ["42[\"extModelMessage\", \"s_abc-123\", 42, 65283, \"23BC0100010000\"]"]⟩ := by
  unfold async_turn_on_light async_control_device_websocket
  rw [ws_guard_false hh hp]
  simp only [Bool.false_eq_true, if_false, hq]
  have hmsg : control_message "ABC-123" 42 "23BC0100010000" =
      "42[\"extModelMessage\", \"s_abc-123\", 42, 65283, \"23BC0100010000\"]" := by
    decide
  rw [hmsg]

/-- Witness for the amended C4 on a concrete endpoint. -/
theorem c4_turn_on_frame_witness :
    async_turn_on_light [("host", "https://example.com"), ("path", "/p")]
        "ABC-123" 42 [WsMsg.other] =
      .ok ⟨ws_url_of [("host", "https://example.com"), ("path", "/p")],
        ["42[\"extModelMessage\", \"s_abc-123\", 42, 65283, \"23BC0100010000\"]"]⟩ :=
  c4_turn_on_frame [("host", "https://example.com"), ("path", "/p")]
    [WsMsg.other] (by decide) (by decide) (by decide)

/-! ## C5 -/

/-- C5 counterexample: the dim command for 50 percent is the claimed
pattern but is 14 characters long, not an "8-hex-character string". -/
theorem c5_counterexample :
    dim_command_data 50 = "23BC0132010000" ∧
    (dim_command_data 50).length ≠ 8 := by
  decide

/-- C5 amended: for every percent in [1,100] the dim command encoder
produces a 14-character string (not 8) of uppercase hex digits of the shape
`23BC01`, then two hex digits, then `010000`, and the argument byte decodes
back to the percent. -/
theorem c5_dim_command_shape :
    ∀ p : Nat, p ≤ 100 → 1 ≤ p →
      (dim_command_data p).length = 14 ∧
      (dim_command_data p).data.take 6 = "23BC01".data ∧
      (dim_command_data p).data.drop 8 = "010000".data ∧
      ((dim_command_data p).data.drop 6).take 2 = (hex2 p).data ∧
      (dim_command_data p).data.all isHexUpperDigit = true ∧
      decodeHex2 (hex2 p) = p := by
  decide

/-- Witness for the amended C5 at 50 percent. -/
theorem c5_dim_command_shape_witness :
    (dim_command_data 50).length = 14 ∧
    (dim_command_data 50).data.take 6 = "23BC01".data ∧
    (dim_command_data 50).data.drop 8 = "010000".data ∧
    ((dim_command_data 50).data.drop 6).take 2 = (hex2 50).data ∧
    (dim_command_data 50).data.all isHexUpperDigit = true ∧
    decodeHex2 (hex2 50) = 50 :=
  c5_dim_command_shape 50 (by decide) (by decide)

/-! ## C6 -/

/-- C6 counterexample: dimming to 0 percent fails, but with exactly the
generic base `SGSmartApiClientError` — the code defines no separate
`InvalidArgument` class, so the failure is not distinguishable from the
generic API error by type. -/
theorem c6_counterexample :
    async_dim_light [("host", "https://example.com"), ("path", "/p")]
        "ABC-123" 1 0 [] =
      .error (.apiError "Brightness must be between 1 and 100, got 0" none) ∧
    failedWithGenericApiError
      (async_dim_light [("host", "https://example.com"), ("path", "/p")]
        "ABC-123" 1 0 []) = true := by
  decide

/-- C6 amended: for every percent outside [1,100], `async_dim_light` fails
with the generic `SGSmartApiClientError` (no distinct `InvalidArgument`
type exists) before any network action: the result is this error for every
endpoint and every WebSocket behaviour, so no connection is opened and
nothing is sent. -/
theorem c6_dim_range_check_first (d : JsonObj) (su : String) (mesh : Int)
    (p : Int) (incoming : List WsMsg) (h : p < 1 ∨ 100 < p) :
    async_dim_light d su mesh p incoming =
      .error (.apiError
        ("Brightness must be between 1 and 100, got " ++ toString p) none) := by
  unfold async_dim_light
  rw [if_pos]
  rintro ⟨h1, h2⟩
  rcases h with h | h <;> omega

/-- Witness for the amended C6 at 0 percent with an empty endpoint: the
range check fires before the endpoint is even validated. -/
theorem c6_dim_range_check_first_witness :
    async_dim_light [] "ABC-123" 1 0 [] =
      .error (.apiError "Brightness must be between 1 and 100, got 0" none) :=
  c6_dim_range_check_first [] "ABC-123" 1 0 [] (Or.inl (by decide))

/-! ## C7 -/

/-- C7 counterexample: an endpoint whose `host` and `path` are present but
empty strings passes the validation — no error is raised and a connection
is opened (to a degenerate URL) — refuting the claim that empty fields fail
before connecting. -/
theorem c7_counterexample :
    async_control_device_websocket [("host", ""), ("path", "")] "ABC-123" 1
        "23BC0100010000" [] =
      .ok ⟨"/socket.io/?EIO=3&transport=websocket",
        ["42[\"extModelMessage\", \"s_abc-123\", 1, 65283, \"23BC0100010000\"]"]⟩ := by
  decide

/-- C7 amended: the validation checks only that the dict is non-empty and
that the `host` and `path` keys are present; when a key is missing (which
covers the empty dict) the call fails with the generic
`SGSmartApiClientError` — not a distinct `InvalidArgument` — for every
WebSocket behaviour, hence before any connection is opened; empty-string
values are not rejected. -/
theorem c7_validation_checks_presence_only (d : JsonObj) (su : String)
    (mesh : Int) (cmd : String) (incoming : List WsMsg)
    (h : hasKey d "host" = false ∨ hasKey d "path" = false) :
    async_control_device_websocket d su mesh cmd incoming =
      .error (.apiError "Invalid control URL data" none) := by
  unfold async_control_device_websocket
  rw [if_pos]
  rcases h with h | h <;> rw [h] <;> simp

/-- Witness for the amended C7 at the empty endpoint. -/
theorem c7_validation_checks_presence_only_witness :
    async_control_device_websocket [] "ABC-123" 1 "23BC0100010000" [] =
      .error (.apiError "Invalid control URL data" none) :=
  c7_validation_checks_presence_only [] "ABC-123" 1 "23BC0100010000" []
    (Or.inl (by decide))

/-! ## C8 -/

/-- C8 counterexample: a 200 discovery response missing both `host` and
`path` is returned successfully by `async_get_control_urls`, which performs
no validation — it does not fail with `ApiError`. -/
theorem c8_counterexample :
    async_get_control_urls (.response 200 []) = .ok [] := by
  decide

/-- C8 amended: `async_get_control_urls` returns any successfully parsed
sub-400 response body unchanged, with no check of `host` or `path`; the
missing fields are only rejected downstream, by the presence check of
`async_control_device_websocket` (see C7). -/
theorem c8_resolver_returns_body_unvalidated (st : Nat) (body : JsonObj)
    (h : st < 400) :
    async_get_control_urls (.response st body) = .ok body := by
  have hv : verify_response_or_raise st = .ok () := by
    unfold verify_response_or_raise
    rw [if_neg, if_neg]
    · omega
    · rintro (h1 | h1) <;> omega
  simp [async_get_control_urls, api_call_without_auth, api_wrapper,
    api_wrapper_try, hv]

/-- Witness for the amended C8: a 204 response with an unrelated body. -/
theorem c8_resolver_returns_body_unvalidated_witness :
    async_get_control_urls (.response 204 [("x", "y")]) = .ok [("x", "y")] :=
  c8_resolver_returns_body_unvalidated 204 [("x", "y")] (by decide)

/-! ## C9 -/

/-- C9 counterexample: after a successful login followed by a failed login
(timeout), the flag is still true although the most recent login call did
not complete successfully — a failing login leaves the flag unchanged
rather than false. -/
theorem c9_counterexample :
    (execTrace ⟨false⟩
      [Op.login (.response 200 []), Op.login .timeout]).1.is_authenticated = true ∧
    (execTrace ⟨false⟩
      [Op.login (.response 200 []), Op.login .timeout]).2 =
      [(.login, true), (.login, false)] := by
  decide

/-- The (dead) retry branch aside, `api_call_body` never changes the
session state: the only state writes of `_api_call_with_auth` sit behind
the unreachable `except SGSmartApiClientAuthenticationError`. -/
theorem api_call_body_state (s : ClientState) (env : Nat → HttpOutcome)
    (i : Nat) (reqs : List Req) : (api_call_body s env i reqs).2.1 = s := by
  unfold api_call_body
  cases h : api_wrapper (env i) with
  | ok v => simp
  | error e =>
      cases e with
      | authError m c => exact absurd h (api_wrapper_ne_auth (env i) m c)
      | apiError m c => simp
      | commError m c => simp

/-- `api_call_body` only appends to the request record it is given. -/
theorem api_call_body_reqs (s : ClientState) (env : Nat → HttpOutcome)
    (i : Nat) (reqs : List Req) :
    ∃ t, (api_call_body s env i reqs).2.2 = reqs ++ t := by
  unfold api_call_body
  cases h : api_wrapper (env i) with
  | ok v => exact ⟨_, rfl⟩
  | error e =>
      cases e with
      | authError m c => exact absurd h (api_wrapper_ne_auth (env i) m c)
      | apiError m c => exact ⟨_, rfl⟩
      | commError m c => exact ⟨_, rfl⟩

/-- One-step invariant: an operation can only leave the flag true if it was
already true or the operation performed a successful login request. -/
theorem execOp_auth (s : ClientState) (op : Op)
    (h : (execOp s op).1.is_authenticated = true) :
    s.is_authenticated = true ∨ (ReqKind.login, true) ∈ (execOp s op).2 := by
  cases op with
  | login o =>
      simp only [execOp, async_login] at h ⊢
      cases hw : api_wrapper o with
      | ok v => right; simp [exOk]
      | error e => left; rw [hw] at h; exact h
  | logout =>
      simp only [execOp, async_logout] at h
      exact absurd h (by simp)
  | callAuth o1 o2 o3 =>
      by_cases hs : s.is_authenticated = true
      · left; exact hs
      · right
        simp only [execOp] at h ⊢
        unfold api_call_with_auth at h ⊢
        rw [if_neg hs] at h ⊢
        unfold async_login at h ⊢
        cases hw : api_wrapper (envOf o1 o2 o3 0) with
        | ok v =>
            obtain ⟨t, ht⟩ :=
              api_call_body_reqs ⟨true⟩ (envOf o1 o2 o3) 1 [(.login, true)]
            simp only [ht]
            exact List.mem_append_left _ (List.mem_singleton.mpr rfl)
        | error e =>
            rw [hw] at h
            exact absurd h hs

/-- Trace invariant: the flag is true after a sequence of operations only
if the starting flag was true or some login request in the trace
succeeded. -/
theorem execTrace_auth (ops : List Op) : ∀ s : ClientState,
    (execTrace s ops).1.is_authenticated = true →
    s.is_authenticated = true ∨ (ReqKind.login, true) ∈ (execTrace s ops).2 := by
  induction ops with
  | nil =>
      intro s h
      left
      exact h
  | cons op rest ih =>
      intro s h
      have h1 : (execTrace (execOp s op).1 rest).1.is_authenticated = true := h
      rcases ih (execOp s op).1 h1 with h2 | h2
      · rcases execOp_auth s op h2 with h3 | h3
        · left; exact h3
        · right
          exact List.mem_append_left _ h3
      · right
        exact List.mem_append_right _ h2

/-- C9 amended: starting unauthenticated, across every sequence of client
operations the flag is true only if some login request in the sequence
completed successfully (the flag is set true by nothing else); a login that
fails with any error leaves the flag unchanged — not necessarily false —
and logout always resets it to false.  (The in-call reset before re-login
exists in the source but is unreachable, see C1/C2.) -/
theorem c9_flag_only_from_successful_login :
    (∀ ops : List Op, (execTrace ⟨false⟩ ops).1.is_authenticated = true →
        (ReqKind.login, true) ∈ (execTrace ⟨false⟩ ops).2) ∧
    (∀ s : ClientState, (execOp s Op.logout).1.is_authenticated = false) ∧
    (∀ (s : ClientState) (o : HttpOutcome),
        exOk (async_login s o).1 = false → (async_login s o).2 = s) := by
  refine ⟨?_, ?_, ?_⟩
  · intro ops h
    rcases execTrace_auth ops ⟨false⟩ h with h1 | h1
    · exact absurd h1 (by simp)
    · exact h1
  · intro s
    rfl
  · intro s o h
    unfold async_login at h ⊢
    cases hw : api_wrapper o with
    | ok v => rw [hw] at h; exact absurd h (by simp [exOk])
    | error e => rfl

/-- Witness for the amended C9. -/
theorem c9_flag_only_from_successful_login_witness :
    (ReqKind.login, true) ∈ (execTrace ⟨false⟩ [Op.login (.response 200 [])]).2 ∧
    (execOp ⟨true⟩ Op.logout).1.is_authenticated = false ∧
    (async_login ⟨true⟩ HttpOutcome.timeout).2 = ⟨true⟩ :=
  ⟨c9_flag_only_from_successful_login.1 [Op.login (.response 200 [])] (by decide),
   c9_flag_only_from_successful_login.2.1 ⟨true⟩,
   c9_flag_only_from_successful_login.2.2 ⟨true⟩ HttpOutcome.timeout (by decide)⟩

/-! ## C10 -/

/-- C10: if, after the command frame is sent, the server closes the
connection having delivered neither a TEXT frame nor an ERROR message, the
receive loop falls through and `async_control_device_websocket` returns
successfully — a silent close is indistinguishable from an acknowledgment
at the public interface. -/
theorem c10_silent_close_is_success (d : JsonObj) (su : String) (mesh : Int)
    (cmd : String) (incoming : List WsMsg)
    (hh : hasKey d "host" = true) (hp : hasKey d "path" = true)
    (hm : ∀ m ∈ incoming, m = WsMsg.other) :
    async_control_device_websocket d su mesh cmd incoming =
      .ok ⟨ws_url_of d, [control_message su mesh cmd]⟩ := by
  unfold async_control_device_websocket
  rw [ws_guard_false hh hp, ws_receive_loop_all_other incoming hm]
  rfl

/-- Witness for C10: empty-handed close on a concrete endpoint. -/
theorem c10_silent_close_is_success_witness :
    async_control_device_websocket [("host", "https://h"), ("path", "/p")]
        "ABC-123" 7 "23BC0100010000" [WsMsg.other, WsMsg.other] =
      .ok ⟨ws_url_of [("host", "https://h"), ("path", "/p")],
        [control_message "ABC-123" 7 "23BC0100010000"]⟩ :=
  c10_silent_close_is_success [("host", "https://h"), ("path", "/p")]
    "ABC-123" 7 "23BC0100010000" [WsMsg.other, WsMsg.other]
    (by decide) (by decide) (by decide)
